import Mathlib

/-
Verification of the mdpo directive-aware extraction/substitution engine.

The repository excerpt ships only the CLI wrapper (src/mdpo/cli.py) and a
test file for the mdpo-include directive; the streaming core itself
(directive interpreter, unit extractor, catalog merger, renderer and the
escaped key-value pair splitting of mdpo/text.py) is not part of the
excerpt, so those components are modelled from the specification and
checked against the behaviour pinned down by the shipped tests.
-/

namespace Mdpo

/-! ## Whitespace trimming helpers -/

/-- Whitespace test used by the trimming of extracted text. -/
def isWsChar (c : Char) : Bool :=
  c = ' ' || c = '\t' || c = '\n' || c = '\r'

/-- Leading whitespace of a character list. -/
def leadChars (l : List Char) : List Char := l.takeWhile isWsChar

/-- The character list with leading whitespace removed. -/
def trimLeftChars (l : List Char) : List Char := l.dropWhile isWsChar

/-- The character list with trailing whitespace removed. -/
def trimRightChars (l : List Char) : List Char :=
  (l.reverse.dropWhile isWsChar).reverse

/-- Trailing whitespace of a character list. -/
def trailChars (l : List Char) : List Char :=
  (l.reverse.takeWhile isWsChar).reverse

/-- Modelled from the spec: extracted text has leading and trailing
whitespace trimmed before becoming a msgid. -/
def strTrim (s : String) : String := ⟨trimRightChars (trimLeftChars s.data)⟩

/-- The leading whitespace of a source text span, kept by the renderer. -/
def strLead (s : String) : String := ⟨leadChars s.data⟩

/-- The trailing whitespace of a source text span, kept by the renderer. -/
def strTrail (s : String) : String := ⟨trailChars (trimLeftChars s.data)⟩

theorem trimRight_append_trail (m : List Char) :
    trimRightChars m ++ trailChars m = m := by
  unfold trimRightChars trailChars
  rw [← List.reverse_append, List.takeWhile_append_dropWhile, List.reverse_reverse]

theorem lead_append_trimLeft (l : List Char) :
    leadChars l ++ trimLeftChars l = l := by
  unfold leadChars trimLeftChars
  exact List.takeWhile_append_dropWhile isWsChar l

theorem strLead_strTrim_strTrail (s : String) :
    strLead s ++ (strTrim s ++ strTrail s) = s := by
  cases s with
  | mk data =>
    show String.mk (leadChars data ++ (trimRightChars (trimLeftChars data) ++
      trailChars (trimLeftChars data))) = String.mk data
    rw [trimRight_append_trail, lead_append_trimLeft]

/-! ## Data model -/

/-- Modelled from the spec: the only per-unit streaming error of the core is
a directive missing its required inline argument. -/
inductive MdpoError where
  | missingArgument
deriving DecidableEq

/-- Modelled from the spec: one structural event of the Markdown event
stream, read-only to the core. Text-bearing blocks carry their raw payload
and line; container kinds (code blocks) are structurally non-translatable;
comments carry the body between the HTML comment markers. -/
inductive Event where
  | text (content : String) (line : Nat)
  | codeBlock (content : String) (line : Nat)
  | comment (body : String) (line : Nat)
deriving DecidableEq

/-- Modelled from the spec: the interpreter state mutated sequentially as
events are consumed. -/
structure InterpreterState where
  enabled : Bool := true
  pending_context : Option String := none
  pending_comment : Option String := none
  pending_flags : List String := []
  disabled_next_line : Bool := false
  enabled_next_line : Bool := false
deriving DecidableEq

/-- The initial interpreter state of a document pass. -/
def initialState : InterpreterState := {}

/-- Modelled from the spec: a candidate translation unit, pre-merge. -/
structure TranslationUnit where
  msgid : String
  msgctxt : Option String := none
  comment : Option String := none
  flags : List String := []
  location : String × Nat
deriving DecidableEq

/-- Modelled from the spec: a catalog entry, post-merge, keyed by
the pair of msgid and msgctxt. -/
structure CatalogEntry where
  msgid : String
  msgctxt : Option String
  msgstr : String
  locations : List (String × Nat)
  comments : List String
  flags : List String
  occurrences : Nat
deriving DecidableEq

/-- A catalog is an insertion-ordered sequence of entries. -/
abbrev Catalog := List CatalogEntry

/-! ## Directive interpreter -/

/-- Modelled from the spec: the closed enumeration of canonical commands. -/
inductive Cmd where
  | enable
  | disable
  | disableNextLine
  | enableNextLine
  | context
  | translator
  | includeText
  | flagCmd
deriving DecidableEq

/-- A parsed directive: a canonical command with its inline argument. -/
structure Directive where
  cmd : Cmd
  arg : String
deriving DecidableEq

/-- Modelled from the spec: the canonical command denoted by a comment
keyword; unknown keywords are not directives. -/
def canonicalOf (name : String) : Option Cmd :=
  if name = "mdpo-enable" then some .enable
  else if name = "mdpo-disable" then some .disable
  else if name = "mdpo-disable-next-line" then some .disableNextLine
  else if name = "mdpo-enable-next-line" then some .enableNextLine
  else if name = "mdpo-context" then some .context
  else if name = "mdpo-translator" then some .translator
  else if name = "mdpo-include" then some .includeText
  else if name = "mdpo-flag" then some .flagCmd
  else none

/-- Modelled from the spec: a comment body is a directive when it matches
a command name optionally followed by a space and an inline argument;
any other body is an ordinary comment. -/
def parseDirective (body : String) : Option Directive :=
  let name : String := ⟨body.data.takeWhile (fun c => c != ' ')⟩
  match canonicalOf name with
  | none => none
  | some c =>
    some ⟨c, ⟨(body.data.dropWhile (fun c => c != ' ')).drop 1⟩⟩

/-- Clear one-shot overrides once the next candidate event is processed. -/
def consumeOneShots (st : InterpreterState) : InterpreterState :=
  { st with disabled_next_line := false, enabled_next_line := false }

/-- Clear the pending metadata after it has been attached to a unit. -/
def clearPending (st : InterpreterState) : InterpreterState :=
  { st with pending_context := none, pending_comment := none, pending_flags := [] }

/-- Modelled from the spec: a text-bearing event is eligible iff extraction
is enabled (or overridden by the enable one-shot) and not suppressed by the
disable one-shot; either suppressing condition wins. -/
def eligible (st : InterpreterState) : Bool :=
  !st.disabled_next_line && (st.enabled || st.enabled_next_line)

/-- Modelled from the spec: consecutive translator-comment directives
accumulate, joined with a newline. -/
def appendComment : Option String → String → Option String
  | none, c => some c
  | some prev, c => some (prev ++ "\n" ++ c)

/-- Modelled from the spec: the effect of one directive on the interpreter
state, optionally emitting a unit (the include directive) or failing when a
required inline argument is absent. -/
def directiveEffect (d : String) (line : Nat) (st : InterpreterState)
    (dir : Directive) :
    Except MdpoError (InterpreterState × Option TranslationUnit) :=
  match dir.cmd with
  | .enable => .ok ({ st with enabled := true }, none)
  | .disable => .ok ({ st with enabled := false }, none)
  | .disableNextLine => .ok ({ st with disabled_next_line := true }, none)
  | .enableNextLine => .ok ({ st with enabled_next_line := true }, none)
  | .context =>
    if dir.arg = "" then .error .missingArgument
    else .ok ({ st with pending_context := some dir.arg }, none)
  | .translator =>
    .ok ({ st with pending_comment := appendComment st.pending_comment dir.arg }, none)
  | .flagCmd => .ok ({ st with pending_flags := st.pending_flags ++ [dir.arg] }, none)
  | .includeText =>
    if dir.arg = "" then .error .missingArgument
    else
      .ok (clearPending st,
        some { msgid := dir.arg, msgctxt := st.pending_context,
               comment := st.pending_comment, flags := st.pending_flags,
               location := (d, line) })

/-! ## Catalog merger -/

/-- Append an element only when it is not already present. -/
def addUnique {α : Type} [DecidableEq α] (l : List α) (x : α) : List α :=
  if x ∈ l then l else l ++ [x]

/-- Modelled from the spec: the fresh catalog entry created on the first
occurrence of a key. -/
def entryOfUnit (u : TranslationUnit) : CatalogEntry :=
  { msgid := u.msgid, msgctxt := u.msgctxt, msgstr := "",
    locations := [u.location],
    comments := (match u.comment with | some c => [c] | none => []),
    flags := u.flags, occurrences := 1 }

/-- Modelled from the spec: the update of an existing entry on a repeated
occurrence: occurrences incremented, location and comment appended only when
new, flags unioned. -/
def updateEntry (e : CatalogEntry) (u : TranslationUnit) : CatalogEntry :=
  { e with
    occurrences := e.occurrences + 1,
    locations := addUnique e.locations u.location,
    comments := (match u.comment with
      | none => e.comments
      | some c => addUnique e.comments c),
    flags := u.flags.foldl addUnique e.flags }

/-- Modelled from the spec: merge one candidate unit into the catalog,
keyed by the pair of msgid and msgctxt, appending new keys in insertion
order. -/
def mergeUnit : Catalog → TranslationUnit → Catalog
  | [], u => [entryOfUnit u]
  | e :: rest, u =>
    if e.msgid = u.msgid ∧ e.msgctxt = u.msgctxt then updateEntry e u :: rest
    else e :: mergeUnit rest u

/-- Find the entry of a catalog with the given composite key. -/
def lookupEntry : Catalog → String → Option String → Option CatalogEntry
  | [], _, _ => none
  | e :: rest, m, ctx =>
    if e.msgid = m ∧ e.msgctxt = ctx then some e else lookupEntry rest m ctx

/-! ## Unit extractor -/

/-- The candidate unit produced by an eligible text-bearing event. -/
def unitOfText (d : String) (st : InterpreterState) (content : String)
    (line : Nat) : TranslationUnit :=
  { msgid := strTrim content, msgctxt := st.pending_context,
    comment := st.pending_comment, flags := st.pending_flags,
    location := (d, line) }

/-- The interpreter state after a text-bearing event: one-shots are always
consumed; pending metadata is cleared exactly when a unit was produced. -/
def textNextState (st : InterpreterState) (content : String) : InterpreterState :=
  if eligible st ∧ strTrim content ≠ "" then clearPending (consumeOneShots st)
  else consumeOneShots st

/-- Modelled from the spec: process one text-bearing event; an eligible
event with non-empty trimmed text merges a unit, anything else leaves the
catalog untouched. -/
def stepText (d : String) (st : InterpreterState) (cat : Catalog)
    (content : String) (line : Nat) : InterpreterState × Catalog :=
  (textNextState st content,
   if eligible st ∧ strTrim content ≠ "" then
     mergeUnit cat (unitOfText d st content line)
   else cat)

/-- Modelled from the spec: process one event of the stream in extraction
mode. -/
def processEvent (d : String) (st : InterpreterState) (cat : Catalog) :
    Event → Except MdpoError (InterpreterState × Catalog)
  | .text content line => .ok (stepText d st cat content line)
  | .codeBlock _ _ => .ok (st, cat)
  | .comment body line =>
    match parseDirective body with
    | none => .ok (st, cat)
    | some dir =>
      match directiveEffect d line st dir with
      | .error err => .error err
      | .ok (st', none) => .ok (st', cat)
      | .ok (st', some u) => .ok (st', mergeUnit cat u)

/-- Fold the extraction step over the event stream, aborting on the first
error. -/
def processEvents (d : String) :
    List Event → InterpreterState → Catalog →
    Except MdpoError (InterpreterState × Catalog)
  | [], st, cat => .ok (st, cat)
  | e :: es, st, cat =>
    match processEvent d st cat e with
    | .error err => .error err
    | .ok (st', cat') => processEvents d es st' cat'

/-- Modelled from the spec: one whole extraction pass over a document;
on failure no catalog is produced. -/
def extract (d : String) (evs : List Event) : Except MdpoError Catalog :=
  match processEvents d evs initialState [] with
  | .error err => .error err
  | .ok (_, cat) => .ok cat

/-! ## Translator / renderer -/

/-- Modelled from the spec: render one text-bearing event. When the event
would have been extracted, the key is looked up; a found non-empty
translation replaces the trimmed span inside the original whitespace;
a missing entry or an empty translation falls back to the verbatim source
text, never an error. Ineligible events are emitted verbatim. -/
def renderText (cat : Catalog) (st : InterpreterState) (content : String) :
    String :=
  if eligible st ∧ strTrim content ≠ "" then
    match lookupEntry cat (strTrim content) st.pending_context with
    | some e =>
      if e.msgstr = "" then content
      else strLead content ++ (e.msgstr ++ strTrail content)
    | none => content
  else content

/-- Modelled from the spec: render one event, replaying the identical
directive interpreter; directives emit no output, container blocks are
emitted verbatim. -/
def renderEvent (d : String) (cat : Catalog) (st : InterpreterState) :
    Event → Except MdpoError (InterpreterState × Option String)
  | .text content _ => .ok (textNextState st content, some (renderText cat st content))
  | .codeBlock content _ => .ok (st, some content)
  | .comment body line =>
    match parseDirective body with
    | none => .ok (st, none)
    | some dir =>
      match directiveEffect d line st dir with
      | .error err => .error err
      | .ok (st', _) => .ok (st', none)

/-- Fold the rendering step over the event stream. -/
def renderEvents (d : String) (cat : Catalog) :
    List Event → InterpreterState → Except MdpoError (List String)
  | [], _ => .ok []
  | e :: es, st =>
    match renderEvent d cat st e with
    | .error err => .error err
    | .ok (st', out) =>
      match renderEvents d cat es st' with
      | .error err => .error err
      | .ok outs => .ok (match out with | some o => o :: outs | none => outs)

/-- Modelled from the spec: one whole rendering pass over a document. -/
def render (d : String) (evs : List Event) (cat : Catalog) :
    Except MdpoError (List String) :=
  renderEvents d cat evs initialState

/-- Fill every msgstr of a catalog with its own msgid, unchanged. -/
def fillIdentity (cat : Catalog) : Catalog :=
  cat.map (fun e => { e with msgstr := e.msgid })

/-- The raw payload of a non-directive region of the document. -/
def sourceText : Event → Option String
  | .text c _ => some c
  | .codeBlock c _ => some c
  | .comment _ _ => none

/-! ## Catalog serialization -/

/-- Modelled from the spec: backslash-escaping of quotes, newlines and
backslashes in serialized PO strings. -/
def escapePoChar (c : Char) : String :=
  if c = Char.ofNat 34 then "\\\""
  else if c = '\n' then "\\n"
  else if c = '\\' then "\\\\"
  else String.singleton c

/-- Escape a whole string for the serialized PO form. -/
def escapePo (s : String) : String :=
  s.data.foldl (fun acc c => acc ++ escapePoChar c) ""

/-- One location reference line of a serialized entry. -/
def serializeLocation (loc : String × Nat) : String :=
  "#: " ++ loc.1 ++ ":" ++ toString loc.2 ++ "\n"

/-- Modelled from the spec: the gettext-style textual block of one catalog
entry: comment lines, location lines, a flags line, optional msgctxt, then
msgid and msgstr. -/
def serializeEntry (e : CatalogEntry) : String :=
  String.join (e.comments.map (fun c => "#. " ++ c ++ "\n")) ++
  String.join (e.locations.map serializeLocation) ++
  (if e.flags = [] then "" else "#, " ++ String.intercalate "," e.flags ++ "\n") ++
  (match e.msgctxt with
   | some c => "msgctxt \"" ++ escapePo c ++ "\"\n"
   | none => "") ++
  "msgid \"" ++ escapePo e.msgid ++ "\"\n" ++
  "msgstr \"" ++ escapePo e.msgstr ++ "\"\n"

/-- Modelled from the spec: serialize a whole catalog, header block first,
entries in insertion order. -/
def serializePo (cat : Catalog) : String :=
  "#\nmsgid \"\"\nmsgstr \"\"\n" ++
  String.join (cat.map (fun e => "\n" ++ serializeEntry e))

/-! ## Configuration layer: escaped key-value pairs (mdpo/cli.py) -/

/-- Modelled from the spec: the configuration-parsing error taxonomy for
key-value pair lists. -/
inductive PairError where
  | malformedPair (pair : String)
  | duplicateKey (key : String)
deriving DecidableEq

/-- Modelled from the spec: split a character list on the first unescaped
colon; a backslash-escaped colon belongs to the key. Returns none when no
unescaped separator exists. -/
def splitEscapedPairChars (acc : List Char) : List Char → Option (List Char × List Char)
  | [] => none
  | '\\' :: ':' :: rest => splitEscapedPairChars (acc ++ [':']) rest
  | '\\' :: c :: rest => splitEscapedPairChars (acc ++ ['\\', c]) rest
  | ':' :: rest => some (acc, rest)
  | c :: rest => splitEscapedPairChars (acc ++ [c]) rest

/-- Split one key-value pair string on its first unescaped colon. -/
def splitEscapedPair (s : String) : Option (String × String) :=
  match splitEscapedPairChars [] s.data with
  | none => none
  | some (k, v) => some (⟨k⟩, ⟨v⟩)

/-- Modelled from the spec: parse a list of key-value pair strings into a
mapping, failing on the first pair without a separator and on the first
repeated key; no partial mapping is ever returned. -/
def parse_escaped_pairs_aux :
    List String → List (String × String) → Except PairError (List (String × String))
  | [], acc => .ok acc
  | p :: rest, acc =>
    match splitEscapedPair p with
    | none => .error (.malformedPair p)
    | some (k, v) =>
      if (acc.map Prod.fst).contains k then .error (.duplicateKey k)
      else parse_escaped_pairs_aux rest (acc ++ [(k, v)])

/-- Modelled from the spec: the configuration-layer pair parsing used by
the CLI wrappers (the function of mdpo/text.py that cli.py imports). -/
def parse_escaped_pairs (pairs : List String) :
    Except PairError (List (String × String)) :=
  parse_escaped_pairs_aux pairs []

/-- The observable outcome of a CLI helper: either the parsed mapping or a
process exit with a message written to stderr. -/
inductive CliOutcome where
  | ok (mapping : List (String × String))
  | exitError (code : Nat) (stderr : String)
deriving DecidableEq

/-- The error message chosen by the CLI wrapper for each failure kind. -/
def pairErrorMessage (value_error_message key_error_message : String → String) :
    PairError → String
  | .malformedPair p => value_error_message p
  | .duplicateKey k => key_error_message k

/-- Embeds parse_escaped_pairs_cli_argument of src/mdpo/cli.py: parse the
pairs, and on either failure write the formatted message to stderr and exit
with code 1. -/
def parse_escaped_pairs_cli_argument (pairs : List String)
    (value_error_message key_error_message : String → String) : CliOutcome :=
  match parse_escaped_pairs pairs with
  | .ok m => .ok m
  | .error (.malformedPair p) => .exitError 1 (value_error_message p)
  | .error (.duplicateKey k) => .exitError 1 (key_error_message k)

/-! ## Helper lemmas -/

theorem processEvents_append (d : String) (xs ys : List Event)
    (st : InterpreterState) (cat : Catalog) :
    processEvents d (xs ++ ys) st cat =
      match processEvents d xs st cat with
      | .error err => .error err
      | .ok (st', cat') => processEvents d ys st' cat' := by
  induction xs generalizing st cat with
  | nil => rfl
  | cons e es ih =>
    show processEvents d (e :: (es ++ ys)) st cat = _
    simp only [processEvents]
    cases hpe : processEvent d st cat e with
    | error err => rfl
    | ok p => exact ih p.1 p.2

theorem mergeUnit_append_of_lookup_none (cat l : Catalog) (u : TranslationUnit)
    (h : lookupEntry cat u.msgid u.msgctxt = none) :
    mergeUnit (cat ++ l) u = cat ++ mergeUnit l u := by
  induction cat with
  | nil => rfl
  | cons a rest ih =>
    unfold lookupEntry at h
    split at h
    · exact absurd h (by simp)
    · show mergeUnit (a :: (rest ++ l)) u = a :: (rest ++ mergeUnit l u)
      conv_lhs => unfold mergeUnit
      rw [if_neg (by assumption), ih h]

theorem mergeUnit_of_lookup_none (cat : Catalog) (u : TranslationUnit)
    (h : lookupEntry cat u.msgid u.msgctxt = none) :
    mergeUnit cat u = cat ++ [entryOfUnit u] := by
  have hm := mergeUnit_append_of_lookup_none cat [] u h
  rw [List.append_nil] at hm
  exact hm

/-! ## Claims -/

/-- Claim C1: whenever the mdpo-include directive comment appears with no
argument text, extraction raises a MissingArgument error and aborts the
whole document pass, producing no catalog for that document. -/
theorem includeMissingArgumentAborts (d : String) (pre post : List Event)
    (l : Nat) (st : InterpreterState) (cat : Catalog)
    (h : processEvents d pre initialState [] = .ok (st, cat)) :
    extract d (pre ++ Event.comment "mdpo-include" l :: post) =
      .error MdpoError.missingArgument := by
  have hstep : processEvent d st cat (Event.comment "mdpo-include" l) =
      .error MdpoError.missingArgument := rfl
  unfold extract
  rw [processEvents_append d pre (Event.comment "mdpo-include" l :: post)
    initialState [], h]
  simp only [processEvents, hstep]

/-- Claim C1 witness: a document consisting of exactly one argument-less
mdpo-include comment yields the MissingArgument error and no catalog. -/
theorem includeMissingArgumentAborts_witness :
    extract "md" ([] ++ Event.comment "mdpo-include" 1 :: []) =
      .error MdpoError.missingArgument :=
  includeMissingArgumentAborts "md" [] [] 1 initialState [] rfl

/-- Claim C2: the include directive followed by two plain paragraphs
yields exactly the three-entry catalog in document order with empty msgstr
and no msgctxt; a preceding mdpo-translator directive attaches its text as
the sole comment of the include entry only; a further preceding
mdpo-context directive attaches its context to that same entry only, the
two paragraphs staying context-free. -/
theorem includeScenarioCatalogs :
    extract "md"
      [Event.comment "mdpo-include This comment must be included" 1,
       Event.text "Some text that needs to be clarified" 2,
       Event.text "Some text without comment" 4] =
      .ok
        [{ msgid := "This comment must be included", msgctxt := none,
           msgstr := "", locations := [("md", 1)], comments := [],
           flags := [], occurrences := 1 },
         { msgid := "Some text that needs to be clarified", msgctxt := none,
           msgstr := "", locations := [("md", 2)], comments := [],
           flags := [], occurrences := 1 },
         { msgid := "Some text without comment", msgctxt := none,
           msgstr := "", locations := [("md", 4)], comments := [],
           flags := [], occurrences := 1 }] ∧
    extract "md"
      [Event.comment "mdpo-translator Comment for translator in comment" 1,
       Event.comment "mdpo-include This comment must be included" 2,
       Event.text "Some text that needs to be clarified" 3,
       Event.text "Some text without comment" 5] =
      .ok
        [{ msgid := "This comment must be included", msgctxt := none,
           msgstr := "", locations := [("md", 2)],
           comments := ["Comment for translator in comment"],
           flags := [], occurrences := 1 },
         { msgid := "Some text that needs to be clarified", msgctxt := none,
           msgstr := "", locations := [("md", 3)], comments := [],
           flags := [], occurrences := 1 },
         { msgid := "Some text without comment", msgctxt := none,
           msgstr := "", locations := [("md", 5)], comments := [],
           flags := [], occurrences := 1 }] ∧
    extract "md"
      [Event.comment "mdpo-context Some context for the included" 1,
       Event.comment "mdpo-translator Comment for translator in comment" 2,
       Event.comment "mdpo-include This comment must be included" 3,
       Event.text "Some text that needs to be clarified" 4,
       Event.text "Some text without comment" 6] =
      .ok
        [{ msgid := "This comment must be included",
           msgctxt := some "Some context for the included",
           msgstr := "", locations := [("md", 3)],
           comments := ["Comment for translator in comment"],
           flags := [], occurrences := 1 },
         { msgid := "Some text that needs to be clarified", msgctxt := none,
           msgstr := "", locations := [("md", 4)], comments := [],
           flags := [], occurrences := 1 },
         { msgid := "Some text without comment", msgctxt := none,
           msgstr := "", locations := [("md", 6)], comments := [],
           flags := [], occurrences := 1 }] :=
  ⟨rfl, rfl, rfl⟩

/-- A concrete unit used to settle the double-merge claim. -/
def c3unit : TranslationUnit := { msgid := "dup", location := ("md", 1) }

/-- Claim C3 counterexample: the claim quantifies over every catalog, but
merging a unit twice into a catalog that already holds an entry of that key
leaves that entry with occurrences three, not two. -/
theorem mergeTwiceOccurrencesNotAlwaysTwo :
    ¬ ∀ (cat : Catalog) (u : TranslationUnit) (e : CatalogEntry),
        lookupEntry (mergeUnit (mergeUnit cat u) u) u.msgid u.msgctxt = some e →
        e.occurrences = 2 := by
  intro h
  have h3 := h [entryOfUnit c3unit] c3unit
    (updateEntry (updateEntry (entryOfUnit c3unit) c3unit) c3unit) rfl
  exact absurd h3 (by decide)

/-- Claim C3 as amended: for every catalog not yet holding an entry with
the unit's key, merging the same unit twice yields a single appended entry
with occurrences two and exactly one, deduplicated, location entry. -/
theorem mergeTwiceFreshKey (cat : Catalog) (u : TranslationUnit)
    (h : lookupEntry cat u.msgid u.msgctxt = none) :
    mergeUnit (mergeUnit cat u) u = cat ++ [updateEntry (entryOfUnit u) u] ∧
    (updateEntry (entryOfUnit u) u).occurrences = 2 ∧
    (updateEntry (entryOfUnit u) u).locations = [u.location] := by
  refine ⟨?_, rfl, ?_⟩
  · rw [mergeUnit_of_lookup_none cat u h,
      mergeUnit_append_of_lookup_none cat [entryOfUnit u] u h]
    congr 1
    show mergeUnit [entryOfUnit u] u = [updateEntry (entryOfUnit u) u]
    unfold mergeUnit
    rw [if_pos ⟨rfl, rfl⟩]
  · show addUnique [u.location] u.location = [u.location]
    unfold addUnique
    rw [if_pos (List.mem_singleton.mpr rfl)]

/-- Claim C3 witness: the amended double-merge behaviour evaluated at a
concrete unit over the empty catalog. -/
theorem mergeTwiceFreshKey_witness :
    mergeUnit (mergeUnit [] c3unit) c3unit =
      [] ++ [updateEntry (entryOfUnit c3unit) c3unit] ∧
    (updateEntry (entryOfUnit c3unit) c3unit).occurrences = 2 ∧
    (updateEntry (entryOfUnit c3unit) c3unit).locations = [c3unit.location] :=
  mergeTwiceFreshKey [] c3unit rfl

/-- Claim C4: two units with identical msgid but different msgctxt merged
into a catalog free of both keys produce two distinct catalog entries,
never merged into one. -/
theorem contextDisambiguation (cat : Catalog) (u1 u2 : TranslationUnit)
    (hid : u1.msgid = u2.msgid) (hctx : u1.msgctxt ≠ u2.msgctxt)
    (h1 : lookupEntry cat u1.msgid u1.msgctxt = none)
    (h2 : lookupEntry cat u2.msgid u2.msgctxt = none) :
    mergeUnit (mergeUnit cat u1) u2 = cat ++ [entryOfUnit u1, entryOfUnit u2] ∧
    (entryOfUnit u1).msgctxt ≠ (entryOfUnit u2).msgctxt := by
  constructor
  · rw [mergeUnit_of_lookup_none cat u1 h1,
      mergeUnit_append_of_lookup_none cat [entryOfUnit u1] u2 h2]
    congr 1
    show mergeUnit [entryOfUnit u1] u2 = [entryOfUnit u1, entryOfUnit u2]
    unfold mergeUnit
    rw [if_neg (fun hc => hctx hc.2)]
    rfl
  · exact hctx

/-- Concrete units sharing a msgid under different contexts. -/
def c4unitA : TranslationUnit :=
  { msgid := "shared", msgctxt := some "ctxA", location := ("md", 1) }

/-- Concrete second unit of the context-disambiguation witness. -/
def c4unitB : TranslationUnit :=
  { msgid := "shared", msgctxt := some "ctxB", location := ("md", 2) }

/-- Claim C4 witness: the two concrete context-bearing units land in two
distinct entries of the empty catalog. -/
theorem contextDisambiguation_witness :
    mergeUnit (mergeUnit [] c4unitA) c4unitB =
      [] ++ [entryOfUnit c4unitA, entryOfUnit c4unitB] ∧
    (entryOfUnit c4unitA).msgctxt ≠ (entryOfUnit c4unitB).msgctxt :=
  contextDisambiguation [] c4unitA c4unitB rfl (by decide) rfl rfl

/-- Claim C6: a text-bearing event arriving while the interpreter is
disabled, with no enable one-shot pending, contributes nothing to the
catalog; an mdpo-enable directive turns the interpreter back on; and an
enabled, unsuppressed text event with non-empty trimmed text then merges
its unit, so extraction resumes at the next eligible event. -/
theorem disableScoping :
    (∀ (d : String) (st : InterpreterState) (cat : Catalog) (c : String)
        (l : Nat), st.enabled = false → st.enabled_next_line = false →
        processEvent d st cat (Event.text c l) = .ok (consumeOneShots st, cat)) ∧
    (∀ (d : String) (st : InterpreterState) (cat : Catalog) (l : Nat),
        processEvent d st cat (Event.comment "mdpo-enable" l) =
          .ok ({ st with enabled := true }, cat)) ∧
    (∀ (d : String) (st : InterpreterState) (cat : Catalog) (c : String)
        (l : Nat), st.enabled = true → st.disabled_next_line = false →
        strTrim c ≠ "" →
        processEvent d st cat (Event.text c l) =
          .ok (clearPending (consumeOneShots st),
               mergeUnit cat (unitOfText d st c l))) := by
  refine ⟨?_, ?_, ?_⟩
  · intro d st cat c l h1 h2
    have helig : eligible st = false := by
      simp [eligible, h1, h2]
    simp [processEvent, stepText, textNextState, helig]
  · intro d st cat l
    have hp : parseDirective "mdpo-enable" = some ⟨Cmd.enable, ""⟩ := rfl
    simp [processEvent, hp, directiveEffect]
  · intro d st cat c l h1 h2 h3
    have helig : eligible st = true := by
      simp [eligible, h1, h2]
    simp [processEvent, stepText, textNextState, helig, h3]

/-- Claim C6 witness: over a disabled state the concrete text event leaves
the empty catalog empty, the enable directive re-enables, and a following
concrete paragraph is merged. -/
theorem disableScoping_witness :
    processEvent "md" { initialState with enabled := false } []
        (Event.text "hidden" 2) =
      .ok (consumeOneShots { initialState with enabled := false }, []) ∧
    processEvent "md" { initialState with enabled := false } []
        (Event.comment "mdpo-enable" 3) =
      .ok ({ { initialState with enabled := false } with enabled := true }, []) ∧
    processEvent "md" initialState [] (Event.text "visible" 4) =
      .ok (clearPending (consumeOneShots initialState),
           mergeUnit [] (unitOfText "md" initialState "visible" 4)) :=
  ⟨disableScoping.1 "md" { initialState with enabled := false } [] "hidden" 2
      rfl rfl,
   disableScoping.2.1 "md" { initialState with enabled := false } [] 3,
   disableScoping.2.2 "md" initialState [] "visible" 4 rfl rfl (by decide)⟩

/-- Claim C8: when the one-shot disabled_next_line flag is set, processing
the next candidate text-bearing event resets it to false and, being
suppressed, produces no unit: the state is exactly the one-shot-consumed
state and the catalog is unchanged, whatever the text was. -/
theorem disabledNextLineConsumed (d : String) (st : InterpreterState)
    (cat : Catalog) (c : String) (l : Nat)
    (h : st.disabled_next_line = true) :
    processEvent d st cat (Event.text c l) = .ok (consumeOneShots st, cat) ∧
    (consumeOneShots st).disabled_next_line = false := by
  have helig : eligible st = false := by
    simp [eligible, h]
  constructor
  · simp [processEvent, stepText, textNextState, helig]
  · rfl

/-- Claim C8 witness: the one-shot is consumed by a concrete text event,
here one whose trimmed text is even empty, so no unit could have been
produced anyway. -/
theorem disabledNextLineConsumed_witness :
    processEvent "md" { initialState with disabled_next_line := true } []
        (Event.text "   " 2) =
      .ok (consumeOneShots { initialState with disabled_next_line := true }, []) ∧
    (consumeOneShots { initialState with disabled_next_line := true
      }).disabled_next_line = false :=
  disabledNextLineConsumed "md"
    { initialState with disabled_next_line := true } [] "   " 2 rfl

/-- Claim C9: a comment event whose body is not valid directive command
syntax is an ordinary comment: it leaves the interpreter state and the
catalog untouched and never raises an error. -/
theorem nonDirectiveCommentPassthrough (d : String) (st : InterpreterState)
    (cat : Catalog) (body : String) (l : Nat)
    (h : parseDirective body = none) :
    processEvent d st cat (Event.comment body l) = .ok (st, cat) := by
  simp [processEvent, h]

/-- Claim C9 witness: a malformed directive-like comment body, carrying the
mdpo- prefix but no recognized command keyword, passes through with no
state effect and no error. -/
theorem nonDirectiveCommentPassthrough_witness :
    processEvent "md" initialState [] (Event.comment "mdpo-bogus stuff" 1) =
      .ok (initialState, []) :=
  nonDirectiveCommentPassthrough "md" initialState [] "mdpo-bogus stuff" 1 rfl

/-- Claim C7: any two extraction runs over identical input produce
byte-identical serialized catalogs; the extraction fold is a deterministic
function of the event stream, so the serialization of the two resulting
catalogs agrees. -/
theorem orderStability (d : String) (evs : List Event) (c1 c2 : Catalog)
    (h1 : extract d evs = .ok c1) (h2 : extract d evs = .ok c2) :
    serializePo c1 = serializePo c2 := by
  rw [h1] at h2
  injection h2 with h
  rw [h]

/-- The event stream of the order-stability witness: a repeated paragraph
exercising merge order, location order and occurrence counting. -/
def c7evs : List Event := [Event.text "hola" 1, Event.text "hola" 2]

/-- The catalog both runs of the order-stability witness produce. -/
def c7cat : Catalog :=
  [{ msgid := "hola", msgctxt := none, msgstr := "",
     locations := [("md", 1), ("md", 2)], comments := [], flags := [],
     occurrences := 2 }]

/-- Claim C7 witness: two concrete runs over the same two-paragraph stream
serialize identically. -/
theorem orderStability_witness : serializePo c7cat = serializePo c7cat :=
  orderStability "md" c7evs c7cat c7cat rfl rfl

/-- Claim C10: configuration pair parsing fails with MalformedPair on the
first pair lacking an unescaped separator and with DuplicateKey on a
repeated key; the CLI wrapper of src/mdpo/cli.py turns either failure into
its formatted message on stderr with exit code 1, and returns a mapping
only when the whole list parsed, never a partial mapping. -/
theorem escapedPairsErrors :
    (∀ (p : String) (rest : List String), splitEscapedPair p = none →
        parse_escaped_pairs (p :: rest) = .error (.malformedPair p)) ∧
    (∀ (p1 p2 : String) (rest : List String) (k v w : String),
        splitEscapedPair p1 = some (k, v) → splitEscapedPair p2 = some (k, w) →
        parse_escaped_pairs (p1 :: p2 :: rest) = .error (.duplicateKey k)) ∧
    (∀ (pairs : List String) (vmsg kmsg : String → String) (err : PairError),
        parse_escaped_pairs pairs = .error err →
        parse_escaped_pairs_cli_argument pairs vmsg kmsg =
          .exitError 1 (pairErrorMessage vmsg kmsg err)) ∧
    (∀ (pairs : List String) (vmsg kmsg : String → String)
        (m : List (String × String)),
        parse_escaped_pairs_cli_argument pairs vmsg kmsg = .ok m →
        parse_escaped_pairs pairs = .ok m) := by
  refine ⟨?_, ?_, ?_, ?_⟩
  · intro p rest h
    simp [parse_escaped_pairs, parse_escaped_pairs_aux, h]
  · intro p1 p2 rest k v w h1 h2
    simp [parse_escaped_pairs, parse_escaped_pairs_aux, h1, h2]
  · intro pairs vmsg kmsg err h
    cases err with
    | malformedPair p =>
      simp [parse_escaped_pairs_cli_argument, h, pairErrorMessage]
    | duplicateKey key =>
      simp [parse_escaped_pairs_cli_argument, h, pairErrorMessage]
  · intro pairs vmsg kmsg m h
    unfold parse_escaped_pairs_cli_argument at h
    cases hp : parse_escaped_pairs pairs with
    | ok m2 =>
      rw [hp] at h
      injection h with h
      rw [← h]
    | error e =>
      rw [hp] at h
      cases e with
      | malformedPair p => exact absurd h (by simp)
      | duplicateKey key => exact absurd h (by simp)

/-- Claim C10 witness: the concrete separator-less pair and the concrete
repeated key fail as claimed, the wrapper exits with code 1 and a message,
and a successful wrapper run returns exactly the parsed mapping. -/
theorem escapedPairsErrors_witness :
    parse_escaped_pairs ["novalue"] = .error (.malformedPair "novalue") ∧
    parse_escaped_pairs ["a:b", "a:c"] = .error (.duplicateKey "a") ∧
    parse_escaped_pairs_cli_argument ["novalue"] (fun s => s) (fun s => s) =
      .exitError 1 (pairErrorMessage (fun s => s) (fun s => s)
        (.malformedPair "novalue")) ∧
    parse_escaped_pairs ["x:y"] = .ok [("x", "y")] :=
  ⟨escapedPairsErrors.1 "novalue" [] rfl,
   escapedPairsErrors.2.1 "a:b" "a:c" [] "a" "b" "c" rfl rfl,
   escapedPairsErrors.2.2.1 ["novalue"] (fun s => s) (fun s => s)
     (.malformedPair "novalue") rfl,
   escapedPairsErrors.2.2.2 ["x:y"] (fun s => s) (fun s => s) [("x", "y")] rfl⟩

theorem lookupEntry_fillIdentity_msgstr (cat : Catalog) (m : String)
    (ctx : Option String) (e : CatalogEntry)
    (h : lookupEntry (fillIdentity cat) m ctx = some e) : e.msgstr = m := by
  induction cat with
  | nil => exact absurd h (by simp [fillIdentity, lookupEntry])
  | cons a rest ih =>
    have hfi : fillIdentity (a :: rest) =
        { a with msgstr := a.msgid } :: fillIdentity rest := rfl
    rw [hfi] at h
    unfold lookupEntry at h
    split at h
    · rename_i hc
      injection h with he
      rw [← he]
      exact hc.1
    · exact ih h

theorem renderText_fillIdentity (cat : Catalog) (st : InterpreterState)
    (c : String) : renderText (fillIdentity cat) st c = c := by
  unfold renderText
  split
  · cases hl : lookupEntry (fillIdentity cat) (strTrim c) st.pending_context with
    | none => simp [hl]
    | some e =>
      have hm := lookupEntry_fillIdentity_msgstr cat (strTrim c)
        st.pending_context e hl
      simp only [hl]
      split
      · rfl
      · rw [hm, strLead_strTrim_strTrail]
  · rfl

theorem renderEvents_of_processEvents_ok (d : String) (cat : Catalog)
    (evs : List Event) :
    ∀ (st : InterpreterState) (cat0 : Catalog)
      (res : InterpreterState × Catalog),
      processEvents d evs st cat0 = .ok res →
      renderEvents d (fillIdentity cat) evs st =
        .ok (evs.filterMap sourceText) := by
  induction evs with
  | nil =>
    intro st cat0 res _
    rfl
  | cons e es ih =>
    intro st cat0 res h
    cases e with
    | text c l =>
      have h' : processEvents d es (textNextState st c)
          (stepText d st cat0 c l).2 = .ok res := h
      have hr := ih (textNextState st c) (stepText d st cat0 c l).2 res h'
      simp only [renderEvents, renderEvent, hr, renderText_fillIdentity,
        List.filterMap_cons, sourceText]
    | codeBlock c l =>
      have h' : processEvents d es st cat0 = .ok res := h
      have hr := ih st cat0 res h'
      simp only [renderEvents, renderEvent, hr, List.filterMap_cons, sourceText]
    | comment body l =>
      cases hpd : parseDirective body with
      | none =>
        have h' : processEvents d es st cat0 = .ok res := by
          simpa [processEvents, processEvent, hpd] using h
        have hr := ih st cat0 res h'
        simp only [renderEvents, renderEvent, hpd, hr,
          List.filterMap_cons, sourceText]
      | some dir =>
        cases hde : directiveEffect d l st dir with
        | error err =>
          rw [show processEvents d (Event.comment body l :: es) st cat0 =
              (match processEvent d st cat0 (Event.comment body l) with
               | .error err => .error err
               | .ok (st', cat') => processEvents d es st' cat') from rfl] at h
          simp [processEvent, hpd, hde] at h
        | ok p =>
          obtain ⟨st2, u⟩ := p
          cases u with
          | none =>
            have h' : processEvents d es st2 cat0 = .ok res := by
              simpa [processEvents, processEvent, hpd, hde] using h
            have hr := ih st2 cat0 res h'
            simp only [renderEvents, renderEvent, hpd, hde, hr,
              List.filterMap_cons, sourceText]
          | some uu =>
            have h' : processEvents d es st2 (mergeUnit cat0 uu) = .ok res := by
              simpa [processEvents, processEvent, hpd, hde] using h
            have hr := ih st2 (mergeUnit cat0 uu) res h'
            simp only [renderEvents, renderEvent, hpd, hde, hr,
              List.filterMap_cons, sourceText]

/-- Claim C5: extracting a catalog from a document, filling every msgstr
with its own msgid unchanged, and rendering with that catalog reproduces
every non-directive region of the original document byte-for-byte; and
when a lookup finds no entry, or finds one with an empty translation, the
renderer emits the original source text unchanged instead of raising an
error. -/
theorem roundTripIdentity :
    (∀ (d : String) (evs : List Event) (cat : Catalog),
        extract d evs = .ok cat →
        render d evs (fillIdentity cat) = .ok (evs.filterMap sourceText)) ∧
    (∀ (cat : Catalog) (st : InterpreterState) (c : String),
        lookupEntry cat (strTrim c) st.pending_context = none →
        renderText cat st c = c) ∧
    (∀ (cat : Catalog) (st : InterpreterState) (c : String) (e : CatalogEntry),
        lookupEntry cat (strTrim c) st.pending_context = some e →
        e.msgstr = "" → renderText cat st c = c) := by
  refine ⟨?_, ?_, ?_⟩
  · intro d evs cat h
    unfold extract at h
    cases hq : processEvents d evs initialState [] with
    | error err =>
      rw [hq] at h
      exact absurd h (by simp)
    | ok p => exact renderEvents_of_processEvents_ok d cat evs initialState [] p hq
  · intro cat st c h
    unfold renderText
    split
    · simp [h]
    · rfl
  · intro cat st c e h he
    unfold renderText
    split
    · simp [h, he]
    · rfl

/-- The event stream of the round-trip witness: a disabled region, an
enable directive, a paragraph and a code block. -/
def c5evs : List Event :=
  [Event.comment "mdpo-disable" 1, Event.text "hidden text" 2,
   Event.comment "mdpo-enable" 3, Event.text "hello World" 4,
   Event.codeBlock "print(42)" 5]

/-- The catalog extracted from the round-trip witness stream. -/
def c5cat : Catalog :=
  [{ msgid := "hello World", msgctxt := none, msgstr := "",
     locations := [("md", 4)], comments := [], flags := [], occurrences := 1 }]

/-- Claim C5 witness: the concrete stream renders back to its own
non-directive payloads under the identity-filled extracted catalog, and a
text with no catalog entry passes through unchanged. -/
theorem roundTripIdentity_witness :
    render "md" c5evs (fillIdentity c5cat) = .ok (c5evs.filterMap sourceText) ∧
    renderText [] initialState "untranslated" = "untranslated" :=
  ⟨roundTripIdentity.1 "md" c5evs c5cat rfl,
   roundTripIdentity.2.1 [] initialState "untranslated" rfl⟩

end Mdpo
